import Mathlib

set_option allowUnsafeReducibility true
set_option maxRecDepth 100000
attribute [local semireducible] Rat.sub Rat.add Rat.mul Rat.div Rat.inv Rat.normalize

/-!
Shallow embedding of the racing-analytics telemetry pipeline.

The telemetry service (`services/telemetry/app.py`) owns the session
lifecycle, the ingest loop, sample persistence and the live broadcast.
The processor service (`services/processor/app.py`) owns lap detection,
session post-processing, analytics and retention.

Machine reals from the source (Python floats) are modelled as rationals;
timestamps are rationals counting seconds; database tables are lists of
rows; the asyncio tasks are modelled as explicit event-consuming state
machines.
-/

namespace RacingAnalytics

/-! ## Decoded packets (external `granturismo` feed, consumed by the service) -/

structure Vec3 where
  x : ℚ
  y : ℚ
  z : ℚ
deriving DecidableEq

structure Rotation where
  pitch : ℚ
  yaw : ℚ
  roll : ℚ
deriving DecidableEq

/-- One wheel's reading: temperature and suspension height, the two fields
the service reads from `packet.wheels.*`. -/
structure Wheel where
  temperature : ℚ
  suspension_height : ℚ
deriving DecidableEq

structure Wheels where
  front_left : Wheel
  front_right : Wheel
  rear_left : Wheel
  rear_right : Wheel
deriving DecidableEq

structure PacketFlags where
  car_on_track : Bool
  paused : Bool
  in_gear : Bool
  rev_limiter_alert_active : Bool
deriving DecidableEq

/-- A decoded physics sample, with exactly the fields the telemetry service
reads from `granturismo.model.packet.Packet`. `current_gear` is `none` when
the decoder reports no gear (Python `None`). -/
structure Packet where
  received_time : ℚ
  position : Vec3
  velocity : Vec3
  rotation : Rotation
  angular_velocity : Vec3
  car_speed : ℚ
  engine_rpm : ℚ
  throttle : ℚ
  brake : ℚ
  clutch : ℚ
  current_gear : Option ℤ
  suggested_gear : ℤ
  gas_level : ℚ
  gas_capacity : ℚ
  oil_temperature : ℚ
  water_temperature : ℚ
  oil_pressure : ℚ
  wheels : Wheels
  body_height : ℚ
  turbo_boost : ℚ
  time_of_day : ℚ
  car_id : ℤ
  flags : PacketFlags

/-! ## Persisted telemetry rows (`telemetry_data` table) -/

/-- One row of the `telemetry_data` table, mirroring the columns of the
INSERT in `process_telemetry_packet`. -/
structure TelemetryRow where
  time : ℚ
  session_id : String
  position_x : ℚ
  position_y : ℚ
  position_z : ℚ
  velocity_x : ℚ
  velocity_y : ℚ
  velocity_z : ℚ
  rotation_pitch : ℚ
  rotation_yaw : ℚ
  rotation_roll : ℚ
  angular_velocity_x : ℚ
  angular_velocity_y : ℚ
  angular_velocity_z : ℚ
  speed_kmh : ℚ
  throttle : ℚ
  brake : ℚ
  steering : ℚ
  clutch : ℚ
  engine_rpm : ℚ
  current_gear : Option ℤ
  suggested_gear : ℤ
  fuel_level : ℚ
  fuel_capacity : ℚ
  oil_temperature : ℚ
  water_temperature : ℚ
  oil_pressure : ℚ
  tire_fl_temp : ℚ
  tire_fr_temp : ℚ
  tire_rl_temp : ℚ
  tire_rr_temp : ℚ
  tire_fl_suspension : ℚ
  tire_fr_suspension : ℚ
  tire_rl_suspension : ℚ
  tire_rr_suspension : ℚ
  car_on_track : Bool
  paused : Bool
  in_gear : Bool
  rev_limiter_active : Bool
  body_height : ℚ
  turbo_boost : ℚ
  time_of_day : ℚ

/-- `process_telemetry_packet`: builds the `telemetry_data` row the service
inserts for one packet while `session_id` is the current session.  Speed is
normalized m/s → km/h (`* 3.6`), throttle and brake are normalized 0–255 →
0–1 (`/ 255.0`), and the steering column is written as the literal `0.0`
("da implementare se disponibile"). -/
def process_telemetry_packet (session_id : String) (p : Packet) : TelemetryRow :=
  { time := p.received_time
    session_id := session_id
    position_x := p.position.x
    position_y := p.position.y
    position_z := p.position.z
    velocity_x := p.velocity.x
    velocity_y := p.velocity.y
    velocity_z := p.velocity.z
    rotation_pitch := p.rotation.pitch
    rotation_yaw := p.rotation.yaw
    rotation_roll := p.rotation.roll
    angular_velocity_x := p.angular_velocity.x
    angular_velocity_y := p.angular_velocity.y
    angular_velocity_z := p.angular_velocity.z
    speed_kmh := p.car_speed * (36 / 10)
    throttle := p.throttle / 255
    brake := p.brake / 255
    steering := 0
    clutch := p.clutch
    engine_rpm := p.engine_rpm
    current_gear := p.current_gear
    suggested_gear := p.suggested_gear
    fuel_level := p.gas_level
    fuel_capacity := p.gas_capacity
    oil_temperature := p.oil_temperature
    water_temperature := p.water_temperature
    oil_pressure := p.oil_pressure
    tire_fl_temp := p.wheels.front_left.temperature
    tire_fr_temp := p.wheels.front_right.temperature
    tire_rl_temp := p.wheels.rear_left.temperature
    tire_rr_temp := p.wheels.rear_right.temperature
    tire_fl_suspension := p.wheels.front_left.suspension_height
    tire_fr_suspension := p.wheels.front_right.suspension_height
    tire_rl_suspension := p.wheels.rear_left.suspension_height
    tire_rr_suspension := p.wheels.rear_right.suspension_height
    car_on_track := p.flags.car_on_track
    paused := p.flags.paused
    in_gear := p.flags.in_gear
    rev_limiter_active := p.flags.rev_limiter_alert_active
    body_height := p.body_height
    turbo_boost := p.turbo_boost
    time_of_day := p.time_of_day }

/-! ## Live broadcast payload (`broadcast_telemetry`) -/

/-- The `telemetry_data` Socket.IO payload built by `broadcast_telemetry`.
`gear = none` stands for the string `"N"` emitted when paused or when the
decoder reports no gear. -/
structure BroadcastData where
  timestamp : ℚ
  speed : ℚ
  rpm : ℚ
  gear : Option ℤ
  throttle : ℚ
  brake : ℚ
  position : Vec3
  car_id : ℤ
  on_track : Bool
  paused : Bool
  status : String
deriving DecidableEq

/-- `broadcast_telemetry`: the payload construction.  The sample is
classified paused when the game is paused or the car is not on track
(`is_paused = packet.flags.paused or not packet.flags.car_on_track`); in
that case speed, rpm, throttle and brake are zeroed, the gear shows
neutral, position and identity are kept and the status is `"paused"`;
otherwise speed is normalized to km/h, throttle and brake to 0–1 and the
status is `"active"`. -/
def broadcast_telemetry (p : Packet) : BroadcastData :=
  let is_paused := p.flags.paused || !p.flags.car_on_track
  if is_paused then
    { timestamp := p.received_time
      speed := 0
      rpm := 0
      gear := none
      throttle := 0
      brake := 0
      position := p.position
      car_id := p.car_id
      on_track := p.flags.car_on_track
      paused := p.flags.paused
      status := "paused" }
  else
    { timestamp := p.received_time
      speed := p.car_speed * (36 / 10)
      rpm := p.engine_rpm
      gear := p.current_gear
      throttle := p.throttle / 255
      brake := p.brake / 255
      position := p.position
      car_id := p.car_id
      on_track := p.flags.car_on_track
      paused := p.flags.paused
      status := "active" }

/-! ## Session lifecycle manager (`start_session`, `stop_session`) -/

/-- An `HTTPException` as surfaced to the caller: HTTP status code plus
detail message. -/
structure HttpError where
  status : ℕ
  detail : String
deriving DecidableEq

/-- One row of the `sessions` table (the columns the lifecycle manager and
the processor touch). -/
structure SessionRow where
  id : String
  circuit_id : ℤ
  vehicle_id : ℤ
  start_time : ℚ
  end_time : Option ℚ
  duration_seconds : Option ℚ
  game_mode : String
deriving DecidableEq

/-- The `TelemetryManager` global state plus the two lookup tables the
handlers read.  `activeIngestTasks` counts the live
`start_telemetry_capture` tasks (`telemetry_task` is absent or `.done()`
exactly when this count is 0). -/
structure ManagerState where
  circuits : List (String × ℤ)
  vehicles : List (String × ℤ)
  sessions : List SessionRow
  current_session : Option String
  is_recording : Bool
  activeIngestTasks : ℕ
deriving DecidableEq

/-- `SELECT id FROM circuits/vehicles WHERE name = $1`. -/
def lookupId (table : List (String × ℤ)) (name : String) : Option ℤ :=
  (table.find? (fun r => r.1 == name)).map (·.2)

/-- The body of `start_session` inside its `try:` block: resolve circuit and
vehicle (raising HTTP 404 when either is missing), insert the session row
with `end_time` unset, take the current-session slot, set the recording
flag, and launch the ingest task unless one is already running. -/
def start_session_body (st : ManagerState)
    (circuit_name vehicle_name game_mode session_id : String) (now : ℚ) :
    Except HttpError ManagerState :=
  match lookupId st.circuits circuit_name with
  | none => .error ⟨404, "Circuito non trovato"⟩
  | some cid =>
    match lookupId st.vehicles vehicle_name with
    | none => .error ⟨404, "Veicolo non trovato"⟩
    | some vid =>
      .ok { st with
        sessions := st.sessions ++
          [{ id := session_id, circuit_id := cid, vehicle_id := vid,
             start_time := now, end_time := none, duration_seconds := none,
             game_mode := game_mode }]
        current_session := some session_id
        is_recording := true
        activeIngestTasks :=
          if st.activeIngestTasks = 0 then 1 else st.activeIngestTasks }

/-- `start_session` as the caller sees it: the handler's blanket
`except Exception` catches every error raised in the body — including the
`HTTPException(404)`s, which subclass `Exception` — and re-raises it as
HTTP 500 with the stringified original error as detail. -/
def start_session (st : ManagerState)
    (circuit_name vehicle_name game_mode session_id : String) (now : ℚ) :
    Except HttpError ManagerState :=
  match start_session_body st circuit_name vehicle_name game_mode session_id now with
  | .ok st' => .ok st'
  | .error e => .error ⟨500, e.detail⟩

/-- The body of `stop_session` inside its `try:` block: raise HTTP 404
unless the given id is the currently open session, otherwise write end
time and duration onto the row, clear the recording flag and release the
current-session slot. -/
def stop_session_body (st : ManagerState) (session_id : String) (now : ℚ) :
    Except HttpError ManagerState :=
  if st.current_session = some session_id then
    .ok { st with
      sessions := st.sessions.map (fun r =>
        if r.id = session_id then
          { r with end_time := some now,
                   duration_seconds := some (now - r.start_time) }
        else r)
      is_recording := false
      current_session := none }
  else .error ⟨404, "Sessione non trovata o non attiva"⟩

/-- `stop_session` as the caller sees it: the blanket `except Exception`
re-raises the body's errors as HTTP 500. -/
def stop_session (st : ManagerState) (session_id : String) (now : ℚ) :
    Except HttpError ManagerState :=
  match stop_session_body st session_id now with
  | .ok st' => .ok st'
  | .error e => .error ⟨500, e.detail⟩

/-- Events a run of the process can observe: lifecycle requests from the
API layer, the unrecoverable feed failure (the outer `except` of
`start_telemetry_capture`, which clears the recording flag as the task
ends), and the cooperative task exit (the `while` condition observing that
recording stopped). -/
inductive LifecycleEvent where
  | startReq (circuit_name vehicle_name game_mode session_id : String) (now : ℚ)
  | stopReq (session_id : String) (now : ℚ)
  | feedFailure
  | ingestTaskExit

/-- One step of the lifecycle state machine.  Failed requests (the handler
returned an error) leave the state unchanged. -/
def execEvent (st : ManagerState) : LifecycleEvent → ManagerState
  | .startReq c v g sid now =>
    match start_session st c v g sid now with
    | .ok st' => st'
    | .error _ => st
  | .stopReq sid now =>
    match stop_session st sid now with
    | .ok st' => st'
    | .error _ => st
  | .feedFailure => { st with is_recording := false, activeIngestTasks := 0 }
  | .ingestTaskExit =>
    if st.is_recording then st else { st with activeIngestTasks := 0 }

def execEvents (st : ManagerState) (evs : List LifecycleEvent) : ManagerState :=
  evs.foldl execEvent st

/-- Number of `sessions` rows whose end time is unset ("open" sessions). -/
def openSessionCount (st : ManagerState) : ℕ :=
  st.sessions.countP (fun r => r.end_time.isNone)

/-- A fresh manager over a one-circuit, one-vehicle catalogue. -/
def demoState : ManagerState :=
  { circuits := [("Monza", 1)]
    vehicles := [("Mazda RX-7", 7)]
    sessions := []
    current_session := none
    is_recording := false
    activeIngestTasks := 0 }

/-! ## Ingest loop (`start_telemetry_capture`) -/

/-- What one iteration of the capture loop can observe from the feed:
a decoded packet, an empty poll (`feed.get()` returned nothing), an
exception inside the per-sample `try` (decode/process/persist failure —
logged, 0.1 s sleep, continue), a cooperative stop (`stop_session`
cleared `is_recording`), or an error escaping to the outer handler
(unrecoverable feed failure). -/
inductive FeedEvent where
  | sample (p : Packet)
  | emptyPoll
  | sampleFailure
  | stopRequest
  | feedFailure

/-- How the capture task ended. -/
inductive LoopExit where
  | stopped
  | feedFailed
deriving DecidableEq

/-- The state the capture loop reads and writes: the manager's recording
flag and current-session slot, the persisted rows, and the emitted
broadcasts. -/
structure LoopState where
  is_recording : Bool
  current_session : Option String
  persisted : List TelemetryRow
  broadcasts : List BroadcastData

/-- Processing of one packet inside the loop: persist the normalized row
(when a session is current) and broadcast the live payload. -/
def stepSample (st : LoopState) (p : Packet) : LoopState :=
  match st.current_session with
  | some sid =>
    { st with persisted := st.persisted ++ [process_telemetry_packet sid p]
              broadcasts := st.broadcasts ++ [broadcast_telemetry p] }
  | none => st

/-- The `while telemetry_manager.is_recording` loop of
`start_telemetry_capture`, run against a finite prefix of feed events.
Result `none` means the loop is still running (the event prefix was
exhausted); `some exit` says how it terminated.  A per-sample failure is
caught by the inner `try` and the loop continues; a feed failure reaches
the outer `except`, which clears the recording flag. -/
def ingestLoop (st : LoopState) : List FeedEvent → LoopState × Option LoopExit
  | [] => if st.is_recording then (st, none) else (st, some .stopped)
  | e :: rest =>
    if st.is_recording then
      match e with
      | .sample p => ingestLoop (stepSample st p) rest
      | .emptyPoll => ingestLoop st rest
      | .sampleFailure => ingestLoop st rest
      | .stopRequest => ingestLoop { st with is_recording := false } rest
      | .feedFailure => ({ st with is_recording := false }, some .feedFailed)
    else (st, some .stopped)

/-! ## Lap detection engine (`detect_laps_from_position`) -/

/-- One row of the position/speed trace fetched by `calculate_lap_times`
(`SELECT time, position_x, position_y, position_z, speed_kmh ... ORDER BY
time`). -/
structure PosSample where
  time : ℚ
  position_x : ℚ
  position_y : ℚ
  position_z : ℚ
  speed_kmh : ℚ
deriving DecidableEq

/-- A detected lap: the dict `{'start_time': .., 'end_time': ..}`. -/
structure LapSpan where
  start_time : ℚ
  end_time : ℚ
deriving DecidableEq

/-- Candidate line crossings: samples whose planar distance from the first
sample's position is under 50 m.  The source compares
`sqrt((x-sx)² + (y-sy)²) < 50`; both sides being nonnegative this is
equivalent to the squared comparison used here, which keeps the embedding
inside the rationals. -/
def nearStart (df : List PosSample) (sx sy : ℚ) : List PosSample :=
  df.filter (fun r =>
    decide ((r.position_x - sx) ^ 2 + (r.position_y - sy) ^ 2 < 2500))

/-- The `lap_starts` accumulation: for every pair of consecutive candidate
crossings more than 30 s apart, the later crossing's timestamp becomes a
lap boundary. -/
def lapStarts (ns : List PosSample) : List ℚ :=
  (ns.zip ns.tail).filterMap (fun ab =>
    if ab.2.time - ab.1.time > 30 then some ab.2.time else none)

/-- `detect_laps_from_position`.  On an empty frame `df.iloc[0]` raises and
the enclosing `except` returns the laps accumulated so far, i.e. none.
With boundaries `t₀ < t₁ < …`, the laps are `[first sample, t₀]`, then
`[tᵢ, tᵢ₊₁]`, plus one final lap `[t_last, last sample]` only when the
last sample is more than 30 s after the last boundary. -/
def detect_laps_from_position (df : List PosSample) : List LapSpan :=
  match df with
  | [] => []
  | first :: _ =>
    let ns := nearStart df first.position_x first.position_y
    if ns.length < 2 then []
    else
      match lapStarts ns with
      | [] => []
      | t0 :: ts =>
        let lastStart := (t0 :: ts).getLastD t0
        let lastTime := (df.getLastD first).time
        let midLaps := ((t0 :: ts).zip ts).map
          (fun ab => ({ start_time := ab.1, end_time := ab.2 } : LapSpan))
        let finalLaps : List LapSpan :=
          if lastTime - lastStart > 30 then
            [{ start_time := lastStart, end_time := lastTime }]
          else []
        [{ start_time := first.time, end_time := t0 }] ++ midLaps ++ finalLaps

/-- Python `int(x)`: truncation toward zero. -/
def pyInt (q : ℚ) : ℤ := if 0 ≤ q then ⌊q⌋ else ⌈q⌉

def lapDurationSec (l : LapSpan) : ℚ := l.end_time - l.start_time

/-- `int((lap['end_time'] - lap['start_time']).total_seconds() * 1000)`. -/
def lapTimeMs (l : LapSpan) : ℤ := pyInt (lapDurationSec l * 1000)

/-- The least duration among `l :: ls` — the key minimized by
`min(laps, key=...)`. -/
def minDuration (l : LapSpan) (ls : List LapSpan) : ℚ :=
  ls.foldl (fun m lp => min m (lapDurationSec lp)) (lapDurationSec l)

/-- The best lap's 1-based number: `laps.index(min(laps, key=duration)) + 1`.
Python's `min` returns the first element attaining the least key and
`index` finds the first equal dict; an earlier equal dict would itself
attain the least key first, so the result is the first index with minimal
duration. -/
def bestLapNumber : List LapSpan → ℕ
  | [] => 0
  | l :: ls =>
    ((l :: ls).findIdx (fun lp => decide (lapDurationSec lp = minDuration l ls))) + 1

/-- `int((best_lap['end_time'] - best_lap['start_time']).total_seconds() * 1000)`:
the minimal duration in milliseconds. -/
def bestLapTimeMs : List LapSpan → ℤ
  | [] => 0
  | l :: ls => pyInt (minDuration l ls * 1000)

/-! ## Lap rows and `calculate_lap_times` -/

/-- One row of the `laps` table for the session being processed. -/
structure LapRow where
  lap_number : ℕ
  lap_time_ms : ℤ
  start_time : ℚ
  end_time : ℚ
  is_valid : Bool
  is_best_lap : Bool
deriving DecidableEq

/-- `INSERT INTO laps ... ON CONFLICT (session_id, lap_number) DO UPDATE SET
lap_time_ms, start_time, end_time`: overwrite the three columns of the
existing row with this lap number, or append a fresh row (`is_valid` true,
`is_best_lap` at its column default, false). -/
def upsertLap (db : List LapRow) (n : ℕ) (ms : ℤ) (s e : ℚ) : List LapRow :=
  if db.any (fun r => r.lap_number == n) then
    db.map (fun r =>
      if r.lap_number = n then
        { r with lap_time_ms := ms, start_time := s, end_time := e }
      else r)
  else
    db ++ [{ lap_number := n, lap_time_ms := ms, start_time := s, end_time := e,
             is_valid := true, is_best_lap := false }]

/-- `for i, lap in enumerate(laps): upsert(i + 1, ...)`, with `k` the lap
number given to the head of the remaining list. -/
def insertLapsFrom (db : List LapRow) (k : ℕ) : List LapSpan → List LapRow
  | [] => db
  | l :: ls =>
    insertLapsFrom (upsertLap db k (lapTimeMs l) l.start_time l.end_time) (k + 1) ls

/-- `UPDATE laps SET is_best_lap = true WHERE session_id = $1 AND
lap_number = $2`.  Nothing clears previously set flags. -/
def setBestFlag (db : List LapRow) (n : ℕ) : List LapRow :=
  db.map (fun r => if r.lap_number = n then { r with is_best_lap := true } else r)

/-- `calculate_lap_times` for one session: takes the session's laps table
and its time-ordered position trace and returns the updated laps table
together with the session-summary update (best lap time in ms and
completed-lap count), `none` when the summary UPDATE is not executed.
Fewer than 100 samples: return without touching anything. -/
def calculate_lap_times (db : List LapRow) (telemetry : List PosSample) :
    List LapRow × Option (ℤ × ℕ) :=
  if telemetry.length < 100 then (db, none)
  else
    let laps := detect_laps_from_position telemetry
    let db1 := insertLapsFrom db 1 laps
    match laps with
    | [] => (db1, none)
    | _ :: _ =>
      (setBestFlag db1 (bestLapNumber laps), some (bestLapTimeMs laps, laps.length))

/-! ## Session post-processing (`process_completed_session`) -/

/-- `SELECT MAX(speed_kmh), AVG(speed_kmh), COUNT(*) ...` with the
service's `float(x or 0)` null handling: zeroes on an empty trace. -/
structure TelemetryStats where
  max_speed : ℚ
  avg_speed : ℚ
  data_points : ℕ
deriving DecidableEq

def calculate_telemetry_stats (t : List PosSample) : TelemetryStats :=
  match t with
  | [] => { max_speed := 0, avg_speed := 0, data_points := 0 }
  | s :: rest =>
    { max_speed := rest.foldl (fun m r => max m r.speed_kmh) s.speed_kmh
      avg_speed := ((s :: rest).map (·.speed_kmh)).sum / ((s :: rest).length : ℚ)
      data_points := (s :: rest).length }

/-- The fields of the `sessions` row that `process_completed_session` and
`calculate_lap_times` write. -/
structure SessionRec where
  id : String
  end_time : Option ℚ
  best_lap_time_ms : Option ℤ
  completed_laps : Option ℕ
  max_speed_kmh : ℚ
  avg_speed_kmh : ℚ
  processed : Bool
  processed_at : Option ℚ
deriving DecidableEq

/-- `process_completed_session` for one existing session: run lap
detection (whose summary UPDATE writes best lap time and lap count when
laps were found), compute telemetry statistics, then mark the metadata
`processed = true` with a processing timestamp — unconditionally.  All
errors are caught and logged; nothing is raised to the caller. -/
def process_completed_session (sess : SessionRec) (laps_db : List LapRow)
    (telemetry : List PosSample) (now : ℚ) : SessionRec × List LapRow :=
  let r := calculate_lap_times laps_db telemetry
  let stats := calculate_telemetry_stats telemetry
  let sess1 :=
    match r.2 with
    | some bn => { sess with best_lap_time_ms := some bn.1,
                             completed_laps := some bn.2 }
    | none => sess
  ({ sess1 with processed := true, processed_at := some now,
                max_speed_kmh := stats.max_speed,
                avg_speed_kmh := stats.avg_speed },
   r.1)

/-! ## Retention sweeper (`cleanup_old_telemetry`) -/

/-- `cutoff_date = datetime.now(utc) - timedelta(days=30)`, in seconds. -/
def retentionCutoff (now : ℚ) : ℚ := now - 30 * 86400

/-- `DELETE FROM telemetry_data WHERE time < $1` with the 30-day cutoff:
the surviving table. -/
def cleanup_old_telemetry (table : List TelemetryRow) (now : ℚ) : List TelemetryRow :=
  table.filter (fun r => !(decide (r.time < retentionCutoff now)))

/-! ## Concrete fixtures used by the witnesses and counterexamples -/

def baseWheel : Wheel := { temperature := 60, suspension_height := 1 }

def baseWheels : Wheels :=
  { front_left := baseWheel, front_right := baseWheel,
    rear_left := baseWheel, rear_right := baseWheel }

/-- A packet whose paused flag is set (car on track). -/
def pausedPacket : Packet :=
  { received_time := 10, position := ⟨1, 2, 3⟩, velocity := ⟨4, 0, 0⟩,
    rotation := ⟨0, 0, 0⟩, angular_velocity := ⟨0, 0, 0⟩,
    car_speed := 50, engine_rpm := 4000, throttle := 128, brake := 64,
    clutch := 0, current_gear := some 3, suggested_gear := 4,
    gas_level := 30, gas_capacity := 60, oil_temperature := 90,
    water_temperature := 85, oil_pressure := 4, wheels := baseWheels,
    body_height := 1, turbo_boost := 0, time_of_day := 43200,
    car_id := 123, flags := ⟨true, true, true, false⟩ }

/-- The same packet with the paused flag cleared (on track, not paused). -/
def activePacket : Packet :=
  { pausedPacket with flags := ⟨true, false, true, false⟩ }

def mkSample (t x : ℚ) : PosSample :=
  { time := t, position_x := x, position_y := 0, position_z := 0, speed_kmh := 100 }

/-- A 131-sample trace, one sample per second from t = 0 s to t = 130 s;
the samples at the listed times sit on the start point, all others 1000 m
away (well outside the 50 m proximity threshold). -/
def mkTrace (nearTimes : List ℕ) : List PosSample :=
  (List.range 131).map (fun i =>
    if nearTimes.contains i then mkSample i 0 else mkSample i 1000)

/-- Passes the start point at t = 0 s, 62 s and 125 s; last sample t = 130 s. -/
def c2Trace : List PosSample := mkTrace [0, 62, 125]

/-- Passes the start point at t = 0 s, 63 s and 125 s (lap 2, 62 s, is fastest). -/
def t1Trace : List PosSample := mkTrace [0, 63, 125]

/-- Passes the start point at t = 0 s, 62 s and 130 s (lap 1, 62 s, is fastest). -/
def t2Trace : List PosSample := mkTrace [0, 62, 130]

/-- Number of rows of a session's laps table carrying the best-lap flag. -/
def bestFlagCount (db : List LapRow) : ℕ := db.countP (fun r => r.is_best_lap)

/-- The two-start event sequence: a second `startSession` while `sid-a` is
still open. -/
def doubleStart : List LifecycleEvent :=
  [.startReq "Monza" "Mazda RX-7" "TIME_TRIAL" "sid-a" 100,
   .startReq "Monza" "Mazda RX-7" "TIME_TRIAL" "sid-b" 200]

/-! ## C10 — the persisted steering column -/

/-- Claim C10: every `telemetry_data` row persisted by the ingest loop has
steering equal to 0.0, regardless of the decoded packet's content — the
INSERT passes the literal `0.0` for the steering column. -/
theorem persisted_steering_is_zero (sid : String) (p : Packet) :
    (process_telemetry_packet sid p).steering = 0 := rfl

/-! ## C3 — paused/active classification of the live sample -/

/-- Claim C3: for every sample processed while recording, if the paused
flag is set or the on-track flag is unset, the dynamic fields (speed, rpm,
throttle, brake) of the live sample are zeroed while position and identity
fields keep the packet's values and the broadcast carries status
`"paused"`; otherwise speed is normalized m/s → km/h, throttle and brake
to 0–1, and the broadcast carries status `"active"`. -/
theorem broadcast_pause_classification (p : Packet) :
    ((p.flags.paused || !p.flags.car_on_track) = true →
      (broadcast_telemetry p).speed = 0 ∧
      (broadcast_telemetry p).rpm = 0 ∧
      (broadcast_telemetry p).throttle = 0 ∧
      (broadcast_telemetry p).brake = 0 ∧
      (broadcast_telemetry p).position = p.position ∧
      (broadcast_telemetry p).car_id = p.car_id ∧
      (broadcast_telemetry p).timestamp = p.received_time ∧
      (broadcast_telemetry p).status = "paused") ∧
    ((p.flags.paused || !p.flags.car_on_track) = false →
      (broadcast_telemetry p).speed = p.car_speed * (36 / 10) ∧
      (broadcast_telemetry p).rpm = p.engine_rpm ∧
      (broadcast_telemetry p).throttle = p.throttle / 255 ∧
      (broadcast_telemetry p).brake = p.brake / 255 ∧
      (broadcast_telemetry p).position = p.position ∧
      (broadcast_telemetry p).car_id = p.car_id ∧
      (broadcast_telemetry p).timestamp = p.received_time ∧
      (broadcast_telemetry p).status = "active") := by
  constructor <;> intro h <;> simp [broadcast_telemetry, h]

/-- Claim C3 witness: the classification at two concrete packets, one
paused and one active. -/
theorem broadcast_pause_classification_witness :
    (broadcast_telemetry pausedPacket).speed = 0 ∧
    (broadcast_telemetry pausedPacket).status = "paused" ∧
    (broadcast_telemetry activePacket).speed = 180 ∧
    (broadcast_telemetry activePacket).status = "active" :=
  ⟨((broadcast_pause_classification pausedPacket).1 rfl).1,
   ((broadcast_pause_classification pausedPacket).1 rfl).2.2.2.2.2.2.2,
   by
     have h := ((broadcast_pause_classification activePacket).2 rfl).1
     rw [h]; norm_num [activePacket, pausedPacket],
   ((broadcast_pause_classification activePacket).2 rfl).2.2.2.2.2.2.2⟩

/-! ## C9 — retention sweep -/

/-- Claim C9: a retention sweep at cutoff `now − 30 d` keeps exactly the
rows whose timestamp is at or after the cutoff — a row survives iff it was
in the table and is not strictly older than the cutoff — and the surviving
table is a sublist of the original (survivors untouched, in order). -/
theorem retention_sweep_deletes_exactly_old (table : List TelemetryRow) (now : ℚ) :
    (∀ r : TelemetryRow,
      r ∈ cleanup_old_telemetry table now ↔
        (r ∈ table ∧ retentionCutoff now ≤ r.time)) ∧
    List.Sublist (cleanup_old_telemetry table now) table := by
  constructor
  · intro r
    simp [cleanup_old_telemetry, List.mem_filter, not_lt]
  · exact List.filter_sublist _

/-! ## C4 — lifecycle NotFound errors are swallowed into 500 -/

/-- Claim C4 (code bug): `start_session` with an unknown circuit name and
`stop_session` with a non-current session id both raise
`HTTPException(404)` inside their `try:` blocks, but the blanket
`except Exception` of each handler catches that very exception and
re-raises it as HTTP 500 — so the error surfaced synchronously to the
caller is 500, not NotFound. -/
theorem lifecycle_not_found_surfaces_as_500 :
    start_session demoState "Nowhere" "Mazda RX-7" "TIME_TRIAL" "sid-a" 100 =
      .error ⟨500, "Circuito non trovato"⟩ ∧
    start_session demoState "Monza" "Tricycle" "TIME_TRIAL" "sid-a" 100 =
      .error ⟨500, "Veicolo non trovato"⟩ ∧
    stop_session demoState "sid-a" 100 =
      .error ⟨500, "Sessione non trovata o non attiva"⟩ := by
  refine ⟨rfl, rfl, rfl⟩

/-! ## C1 — single open session / single ingest task -/

/-- Claim C1 counterexample: two successful `startSession` calls in a row
(the second while `sid-a` is still open) leave two `sessions` rows with
unset end time — `start_session` never checks for, nor closes, an already
open session. -/
theorem double_start_leaves_two_open_sessions :
    openSessionCount (execEvents demoState doubleStart) = 2 := by decide

/-- One lifecycle step keeps the live ingest-task count at most 1: a start
request reuses a running task (`if not task or task.done()`), a stop only
signals, a feed failure or a cooperative exit ends the task. -/
theorem execEvent_tasks_le (st : ManagerState) (e : LifecycleEvent)
    (h : st.activeIngestTasks ≤ 1) : (execEvent st e).activeIngestTasks ≤ 1 := by
  cases e with
  | startReq c v g sid now =>
    simp only [execEvent, start_session, start_session_body]
    rcases lookupId st.circuits c with _ | cid
    · exact h
    · rcases lookupId st.vehicles v with _ | vid
      · exact h
      · simp only
        split <;> omega
  | stopReq sid now =>
    by_cases hc : st.current_session = some sid <;>
      simp [execEvent, stop_session, stop_session_body, hc] <;> exact h
  | feedFailure => exact Nat.zero_le 1
  | ingestTaskExit =>
    simp only [execEvent]
    split
    · exact h
    · exact Nat.zero_le 1

theorem execEvents_tasks_le (evs : List LifecycleEvent) (st : ManagerState)
    (h : st.activeIngestTasks ≤ 1) : (execEvents st evs).activeIngestTasks ≤ 1 := by
  induction evs generalizing st with
  | nil => exact h
  | cons e rest ih => exact ih (execEvent st e) (execEvent_tasks_le st e h)

/-- Claim C1 (amended): at most one ingest-loop task is ever active over
any sequence of lifecycle events, but a `startSession` while a session is
already open does produce two Session rows with unset end time — the slot
is overwritten and the previous open session is never closed. -/
theorem single_ingest_task_but_open_sessions_leak :
    (∀ evs : List LifecycleEvent,
      (execEvents demoState evs).activeIngestTasks ≤ 1) ∧
    openSessionCount (execEvents demoState doubleStart) = 2 := by
  refine ⟨fun evs => execEvents_tasks_le evs demoState (by decide), by decide⟩

/-! ## C2 — the synthetic three-crossing trace -/

/-- Claim C2 counterexample: on the trace that passes within 50 m of the
start at t = 0 s, 62 s and 125 s and ends at t = 130 s, the engine emits
exactly two laps, [0, 62] and [62, 125] — not three: the final 5 s tail is
not longer than the 30 s inter-lap threshold, so no partial lap [125, 130]
is produced. -/
theorem c2_trace_yields_two_laps :
    detect_laps_from_position c2Trace =
      [{ start_time := 0, end_time := 62 },
       { start_time := 62, end_time := 125 }] := by decide

/-- Claim C2 (amended): on the three-crossing trace, the engine emits
exactly the two complete laps [0 s, 62 s] and [62 s, 125 s] and no partial
final lap (the 5 s tail does not exceed the 30 s threshold); the
62-second lap is flagged best, and the session summary records best lap
62000 ms over 2 completed laps. -/
theorem c2_trace_laps_and_best :
    calculate_lap_times [] c2Trace =
      ([{ lap_number := 1, lap_time_ms := 62000, start_time := 0,
          end_time := 62, is_valid := true, is_best_lap := true },
        { lap_number := 2, lap_time_ms := 63000, start_time := 62,
          end_time := 125, is_valid := true, is_best_lap := false }],
       some (62000, 2)) := by decide

/-! ## C6 — uniqueness of the best-lap flag -/

/-- Claim C6 counterexample: nothing ever clears a previously set best-lap
flag — the engine only runs `UPDATE ... SET is_best_lap = true` for the
new best lap.  Running the engine on a session whose stored telemetry made
lap 2 fastest, and re-running it after the stored telemetry changed (the
retention sweeper deletes old samples) so that lap 1 is now fastest,
leaves both rows flagged best. -/
theorem rerun_leaves_two_best_flags :
    bestFlagCount
      (calculate_lap_times (calculate_lap_times [] t1Trace).1 t2Trace).1 = 2 := by
  decide

/-! ## C7 — sessions with insufficient telemetry -/

/-- Claim C7: processing a completed session whose telemetry has fewer
than the 100-sample minimum adds no Lap rows, surfaces no error, leaves
the lap summary untouched, and still marks the session processed with a
processing timestamp. -/
theorem short_session_still_marked_processed (sess : SessionRec)
    (laps_db : List LapRow) (t : List PosSample) (now : ℚ)
    (h : t.length < 100) :
    (process_completed_session sess laps_db t now).2 = laps_db ∧
    (process_completed_session sess laps_db t now).1.processed = true ∧
    (process_completed_session sess laps_db t now).1.processed_at = some now ∧
    (process_completed_session sess laps_db t now).1.best_lap_time_ms =
      sess.best_lap_time_ms ∧
    (process_completed_session sess laps_db t now).1.completed_laps =
      sess.completed_laps := by
  simp [process_completed_session, calculate_lap_times, h]

/-- Claim C7 witness: a completed session with a 2-sample trace ends up
processed, with its laps table still empty. -/
theorem short_session_still_marked_processed_witness :
    ([mkSample 0 0, mkSample 1 0].length < 100) ∧
    (process_completed_session
      { id := "sid-a", end_time := some 10, best_lap_time_ms := none,
        completed_laps := none, max_speed_kmh := 0, avg_speed_kmh := 0,
        processed := false, processed_at := none }
      [] [mkSample 0 0, mkSample 1 0] 99).2 = [] ∧
    (process_completed_session
      { id := "sid-a", end_time := some 10, best_lap_time_ms := none,
        completed_laps := none, max_speed_kmh := 0, avg_speed_kmh := 0,
        processed := false, processed_at := none }
      [] [mkSample 0 0, mkSample 1 0] 99).1.processed = true := by
  refine ⟨by decide, ?_, ?_⟩
  · exact (short_session_still_marked_processed _ _ _ _ (by decide)).1
  · exact (short_session_still_marked_processed _ _ _ _ (by decide)).2.1

/-! ## C8 — ingest-loop failure policy -/

theorem stepSample_is_recording (st : LoopState) (p : Packet) :
    (stepSample st p).is_recording = st.is_recording := by
  cases h : st.current_session <;> simp [stepSample, h]

/-- While recording and in the absence of stop requests and feed failures,
the loop consumes the whole event prefix and is still running. -/
theorem ingestLoop_runs_without_stop (evs : List FeedEvent) (st : LoopState)
    (hrec : st.is_recording = true)
    (h1 : FeedEvent.stopRequest ∉ evs) (h2 : FeedEvent.feedFailure ∉ evs) :
    (ingestLoop st evs).2 = none ∧ (ingestLoop st evs).1.is_recording = true := by
  induction evs generalizing st with
  | nil => simp [ingestLoop, hrec]
  | cons e rest ih =>
    have h1' : FeedEvent.stopRequest ∉ rest := fun hmem => h1 (List.mem_cons_of_mem _ hmem)
    have h2' : FeedEvent.feedFailure ∉ rest := fun hmem => h2 (List.mem_cons_of_mem _ hmem)
    cases e with
    | sample p =>
      simpa [ingestLoop, hrec] using
        ih (stepSample st p) ((stepSample_is_recording st p).trans hrec) h1' h2'
    | emptyPoll => simpa [ingestLoop, hrec] using ih st hrec h1' h2'
    | sampleFailure => simpa [ingestLoop, hrec] using ih st hrec h1' h2'
    | stopRequest => exact absurd (List.mem_cons_self _ _) h1
    | feedFailure => exact absurd (List.mem_cons_self _ _) h2

/-- Whenever the loop ends with `feedFailed`, the recording flag has been
cleared by the outer handler. -/
theorem ingestLoop_feedFailed_clears_recording (evs : List FeedEvent) (st : LoopState)
    (h : (ingestLoop st evs).2 = some .feedFailed) :
    (ingestLoop st evs).1.is_recording = false := by
  induction evs generalizing st with
  | nil =>
    by_cases hrec : st.is_recording <;> simp [ingestLoop, hrec] at h
  | cons e rest ih =>
    by_cases hrec : st.is_recording
    · cases e with
      | sample p =>
        rw [show ingestLoop st (.sample p :: rest) = ingestLoop (stepSample st p) rest from
          by simp [ingestLoop, hrec]] at h ⊢
        exact ih _ h
      | emptyPoll =>
        rw [show ingestLoop st (.emptyPoll :: rest) = ingestLoop st rest from
          by simp [ingestLoop, hrec]] at h ⊢
        exact ih _ h
      | sampleFailure =>
        rw [show ingestLoop st (.sampleFailure :: rest) = ingestLoop st rest from
          by simp [ingestLoop, hrec]] at h ⊢
        exact ih _ h
      | stopRequest =>
        rw [show ingestLoop st (.stopRequest :: rest) =
            ingestLoop { st with is_recording := false } rest from
          by simp [ingestLoop, hrec]] at h ⊢
        exact ih _ h
      | feedFailure => simp [ingestLoop, hrec]
    · simp only [Bool.not_eq_true] at hrec
      simp [ingestLoop, hrec] at h

/-- Claim C8: while recording, a failure on a single sample (decode,
process or persist) never terminates the ingest loop — the loop logs,
pauses and continues to the same continuation; the loop terminates only on
an explicit stop request or an unrecoverable feed failure (with neither in
the event prefix it is still running at the end), and when it exits with a
feed failure the recording flag has been cleared. -/
theorem ingest_loop_failure_policy (st : LoopState) (evs : List FeedEvent)
    (hrec : st.is_recording = true) :
    (ingestLoop st (.sampleFailure :: evs) = ingestLoop st evs) ∧
    ((FeedEvent.stopRequest ∉ evs ∧ FeedEvent.feedFailure ∉ evs) →
      (ingestLoop st evs).2 = none ∧ (ingestLoop st evs).1.is_recording = true) ∧
    ((ingestLoop st evs).2 = some .feedFailed →
      (ingestLoop st evs).1.is_recording = false) := by
  refine ⟨by simp [ingestLoop, hrec], ?_, ingestLoop_feedFailed_clears_recording evs st⟩
  intro h
  exact ingestLoop_runs_without_stop evs st hrec h.1 h.2

/-- The loop state at the start of a recording session. -/
def loopState0 : LoopState :=
  { is_recording := true, current_session := some "sid-a",
    persisted := [], broadcasts := [] }

/-- Claim C8 witness: on a concrete recording state, a sample failure
followed by an empty poll leaves the loop exactly where an empty poll
alone does, and the loop is still running afterwards. -/
theorem ingest_loop_failure_policy_witness :
    ingestLoop loopState0 [.sampleFailure, .emptyPoll] =
      ingestLoop loopState0 [.emptyPoll] ∧
    (ingestLoop loopState0 [.emptyPoll]).2 = none :=
  ⟨(ingest_loop_failure_policy loopState0 [.emptyPoll] rfl).1,
   ((ingest_loop_failure_policy loopState0 [.emptyPoll] rfl).2.1
     (by constructor <;> simp)).1⟩

/-! ## Upsert bookkeeping for C5 and C6 -/

/-- The laps table has at least one row numbered `n`, and every row
numbered `n` carries exactly this lap's data. -/
def HasLapData (db : List LapRow) (n : ℕ) (ms : ℤ) (s e : ℚ) : Prop :=
  (∃ r ∈ db, r.lap_number = n) ∧
  ∀ r ∈ db, r.lap_number = n →
    r.lap_time_ms = ms ∧ r.start_time = s ∧ r.end_time = e

theorem LapRow_update_eq_self (r : LapRow) (ms : ℤ) (s e : ℚ)
    (h1 : r.lap_time_ms = ms) (h2 : r.start_time = s) (h3 : r.end_time = e) :
    ({ r with lap_time_ms := ms, start_time := s, end_time := e } : LapRow) = r := by
  cases r
  simp_all

theorem upsertLap_establishes (db : List LapRow) (n : ℕ) (ms : ℤ) (s e : ℚ) :
    HasLapData (upsertLap db n ms s e) n ms s e := by
  unfold upsertLap
  by_cases hc : db.any (fun r => r.lap_number == n) = true
  · rw [if_pos hc]
    obtain ⟨x, hx, hxn⟩ := List.any_eq_true.mp hc
    rw [beq_iff_eq] at hxn
    constructor
    · exact ⟨_, List.mem_map_of_mem _ hx, by simp [hxn]⟩
    · intro r hr hrn
      obtain ⟨x', hx', rfl⟩ := List.mem_map.mp hr
      by_cases hx'n : x'.lap_number = n
      · rw [if_pos hx'n]
        exact ⟨rfl, rfl, rfl⟩
      · rw [if_neg hx'n] at hrn
        exact absurd hrn hx'n
  · rw [if_neg hc]
    have hforall : ∀ x ∈ db, x.lap_number ≠ n := by
      intro x hx hxn
      exact hc (List.any_eq_true.mpr ⟨x, hx, beq_iff_eq.mpr hxn⟩)
    constructor
    · exact ⟨_, List.mem_append_right _ (List.mem_singleton.mpr rfl), rfl⟩
    · intro r hr hrn
      rcases List.mem_append.mp hr with hdb | hnew
      · exact absurd hrn (hforall r hdb)
      · obtain rfl := List.mem_singleton.mp hnew
        exact ⟨rfl, rfl, rfl⟩

theorem upsertLap_preserves (db : List LapRow) (n' : ℕ) (ms' : ℤ) (s' e' : ℚ)
    (n : ℕ) (ms : ℤ) (s e : ℚ) (hne : n' ≠ n)
    (h : HasLapData db n' ms' s' e') :
    HasLapData (upsertLap db n ms s e) n' ms' s' e' := by
  obtain ⟨⟨x, hx, hxn⟩, hall⟩ := h
  unfold upsertLap
  by_cases hc : db.any (fun r => r.lap_number == n) = true
  · rw [if_pos hc]
    constructor
    · refine ⟨_, List.mem_map_of_mem _ hx, ?_⟩
      rw [if_neg (by rw [hxn]; exact hne)]
      exact hxn
    · intro r hr hrn
      obtain ⟨x', hx', rfl⟩ := List.mem_map.mp hr
      by_cases hx'n : x'.lap_number = n
      · rw [if_pos hx'n] at hrn
        simp only at hrn
        exact absurd (hx'n.symm.trans hrn) (Ne.symm hne)
      · rw [if_neg hx'n] at hrn ⊢
        exact hall _ hx' hrn
  · rw [if_neg hc]
    constructor
    · exact ⟨x, List.mem_append_left _ hx, hxn⟩
    · intro r hr hrn
      rcases List.mem_append.mp hr with hdb | hnew
      · exact hall r hdb hrn
      · obtain rfl := List.mem_singleton.mp hnew
        exact absurd hrn (Ne.symm hne)

theorem upsertLap_of_has (db : List LapRow) (n : ℕ) (ms : ℤ) (s e : ℚ)
    (h : HasLapData db n ms s e) : upsertLap db n ms s e = db := by
  obtain ⟨⟨x, hx, hxn⟩, hall⟩ := h
  unfold upsertLap
  have hc : (db.any fun r => r.lap_number == n) = true :=
    List.any_eq_true.mpr ⟨x, hx, beq_iff_eq.mpr hxn⟩
  rw [if_pos hc]
  refine (List.map_congr_left ?_).trans (List.map_id db)
  intro r hr
  simp only [id_eq]
  by_cases hrn : r.lap_number = n
  · rw [if_pos hrn]
    obtain ⟨h1, h2, h3⟩ := hall r hr hrn
    exact LapRow_update_eq_self r ms s e h1 h2 h3
  · rw [if_neg hrn]

theorem insertLapsFrom_preservesHas (L : List LapSpan) (k : ℕ) (db : List LapRow)
    (n : ℕ) (ms : ℤ) (s e : ℚ) (hlt : n < k) (h : HasLapData db n ms s e) :
    HasLapData (insertLapsFrom db k L) n ms s e := by
  induction L generalizing k db with
  | nil => exact h
  | cons l ls ih =>
    exact ih (k + 1) _ (Nat.lt_succ_of_lt hlt)
      (upsertLap_preserves _ _ _ _ _ _ _ _ _ (Nat.ne_of_lt hlt) h)

/-- Every number handed to the remaining upserts has at least one row, and
all its rows carry the corresponding lap's data. -/
def GoodFrom (db : List LapRow) (k : ℕ) : List LapSpan → Prop
  | [] => True
  | l :: ls => HasLapData db k (lapTimeMs l) l.start_time l.end_time ∧ GoodFrom db (k + 1) ls

theorem goodFrom_of_insert (L : List LapSpan) (k : ℕ) (db : List LapRow) :
    GoodFrom (insertLapsFrom db k L) k L := by
  induction L generalizing k db with
  | nil => trivial
  | cons l ls ih =>
    refine ⟨?_, ih (k + 1) _⟩
    exact insertLapsFrom_preservesHas ls (k + 1) _ k _ _ _ (Nat.lt_succ_self k)
      (upsertLap_establishes db k _ _ _)

theorem insertLapsFrom_of_good (L : List LapSpan) (k : ℕ) (db : List LapRow)
    (h : GoodFrom db k L) : insertLapsFrom db k L = db := by
  induction L generalizing k with
  | nil => rfl
  | cons l ls ih =>
    obtain ⟨h1, h2⟩ := h
    show insertLapsFrom (upsertLap db k (lapTimeMs l) l.start_time l.end_time) (k + 1) ls = db
    rw [upsertLap_of_has db k _ _ _ h1]
    exact ih (k + 1) h2

theorem setBestFlag_preservesHas (db : List LapRow) (m : ℕ) (n : ℕ) (ms : ℤ) (s e : ℚ)
    (h : HasLapData db n ms s e) : HasLapData (setBestFlag db m) n ms s e := by
  obtain ⟨⟨x, hx, hxn⟩, hall⟩ := h
  unfold setBestFlag
  constructor
  · refine ⟨_, List.mem_map_of_mem _ hx, ?_⟩
    by_cases hxm : x.lap_number = m
    · rw [if_pos hxm]
      exact hxn
    · rw [if_neg hxm]
      exact hxn
  · intro r hr hrn
    obtain ⟨x', hx', rfl⟩ := List.mem_map.mp hr
    by_cases hx'm : x'.lap_number = m
    · rw [if_pos hx'm] at hrn ⊢
      have := hall x' hx' (by simpa using hrn)
      simpa using this
    · rw [if_neg hx'm] at hrn ⊢
      exact hall x' hx' hrn

theorem goodFrom_setBestFlag (L : List LapSpan) (k : ℕ) (db : List LapRow) (m : ℕ)
    (h : GoodFrom db k L) : GoodFrom (setBestFlag db m) k L := by
  induction L generalizing k with
  | nil => trivial
  | cons l ls ih => exact ⟨setBestFlag_preservesHas _ _ _ _ _ _ h.1, ih (k + 1) h.2⟩

theorem setBestFlag_idem (db : List LapRow) (n : ℕ) :
    setBestFlag (setBestFlag db n) n = setBestFlag db n := by
  unfold setBestFlag
  rw [List.map_map]
  apply List.map_congr_left
  intro r _
  by_cases hrn : r.lap_number = n <;> simp [hrn]

/-! ## C5 — idempotence of the lap engine -/

/-- Claim C5: running the lap engine a second time over the same telemetry
produces the same laps table and the same session summary — each lap is
upserted keyed on its lap number, overwriting time, start and end with the
identical recomputed values, and the best-lap UPDATE re-flags the same
row. -/
theorem lap_engine_idempotent (db : List LapRow) (t : List PosSample) :
    calculate_lap_times (calculate_lap_times db t).1 t = calculate_lap_times db t := by
  by_cases h : t.length < 100
  · simp [calculate_lap_times, h]
  · cases hL : detect_laps_from_position t with
    | nil => simp [calculate_lap_times, h, hL, insertLapsFrom]
    | cons l ls =>
      have hg : GoodFrom (insertLapsFrom db 1 (l :: ls)) 1 (l :: ls) :=
        goodFrom_of_insert (l :: ls) 1 db
      have hg2 : GoodFrom
          (setBestFlag (insertLapsFrom db 1 (l :: ls)) (bestLapNumber (l :: ls)))
          1 (l :: ls) :=
        goodFrom_setBestFlag _ _ _ _ hg
      simp only [calculate_lap_times, if_neg h, hL]
      rw [insertLapsFrom_of_good _ _ _ hg2, setBestFlag_idem]

/-! ## C6 — flag counting -/

theorem bestFlagCount_upsertLap (db : List LapRow) (n : ℕ) (ms : ℤ) (s e : ℚ) :
    bestFlagCount (upsertLap db n ms s e) = bestFlagCount db := by
  unfold upsertLap bestFlagCount
  by_cases hc : (db.any fun r => r.lap_number == n) = true
  · rw [if_pos hc, List.countP_map]
    apply List.countP_congr
    intro r _
    by_cases hrn : r.lap_number = n <;> simp [hrn]
  · rw [if_neg hc, List.countP_append]
    simp

theorem bestFlagCount_insertLapsFrom (L : List LapSpan) (k : ℕ) (db : List LapRow) :
    bestFlagCount (insertLapsFrom db k L) = bestFlagCount db := by
  induction L generalizing k db with
  | nil => rfl
  | cons l ls ih =>
    show bestFlagCount
      (insertLapsFrom (upsertLap db k (lapTimeMs l) l.start_time l.end_time) (k + 1) ls) =
        bestFlagCount db
    rw [ih, bestFlagCount_upsertLap]

/-- The lap number is untouched by the upsert's per-row update. -/
theorem upsert_row_lap_number (n : ℕ) (ms : ℤ) (s e : ℚ) (a : LapRow) :
    (if a.lap_number = n then
      ({ a with lap_time_ms := ms, start_time := s, end_time := e } : LapRow)
    else a).lap_number = a.lap_number := by
  by_cases h : a.lap_number = n <;> simp [h]

theorem nodupKeys_upsertLap (db : List LapRow) (n : ℕ) (ms : ℤ) (s e : ℚ)
    (h : List.Pairwise (fun a b => a.lap_number ≠ b.lap_number) db) :
    List.Pairwise (fun a b => a.lap_number ≠ b.lap_number) (upsertLap db n ms s e) := by
  unfold upsertLap
  by_cases hc : (db.any fun r => r.lap_number == n) = true
  · rw [if_pos hc]
    refine List.Pairwise.map _ ?_ h
    intro a b hab
    simpa [upsert_row_lap_number] using hab
  · rw [if_neg hc]
    rw [List.pairwise_append]
    refine ⟨h, List.pairwise_singleton _ _, ?_⟩
    intro a ha b hb
    obtain rfl := List.mem_singleton.mp hb
    intro heq
    exact hc (List.any_eq_true.mpr ⟨a, ha, beq_iff_eq.mpr heq⟩)

theorem nodupKeys_insertLapsFrom (L : List LapSpan) (k : ℕ) (db : List LapRow)
    (h : List.Pairwise (fun a b => a.lap_number ≠ b.lap_number) db) :
    List.Pairwise (fun a b => a.lap_number ≠ b.lap_number) (insertLapsFrom db k L) := by
  induction L generalizing k db with
  | nil => exact h
  | cons l ls ih => exact ih (k + 1) _ (nodupKeys_upsertLap db k _ _ _ h)

/-- Setting the best flag at key `n` on a table with unique lap numbers and
no flag set leaves at most one flagged row. -/
theorem bestFlagCount_setBestFlag_le (db : List LapRow) (n : ℕ)
    (hkeys : List.Pairwise (fun a b => a.lap_number ≠ b.lap_number) db)
    (hclean : bestFlagCount db = 0) :
    bestFlagCount (setBestFlag db n) ≤ 1 := by
  induction db with
  | nil => simp [setBestFlag, bestFlagCount]
  | cons r rest ih =>
    rw [List.pairwise_cons] at hkeys
    unfold bestFlagCount at hclean
    rw [List.countP_cons] at hclean
    have hrb : r.is_best_lap = false := by
      by_cases hb : r.is_best_lap
      · simp [hb] at hclean
      · simpa using hb
    have hrest : bestFlagCount rest = 0 := by
      unfold bestFlagCount
      omega
    unfold setBestFlag bestFlagCount
    rw [List.map_cons, List.countP_cons]
    by_cases hrn : r.lap_number = n
    · rw [if_pos hrn]
      have hrest_eq :
          List.map (fun x => if x.lap_number = n then { x with is_best_lap := true } else x)
            rest = rest := by
        refine (List.map_congr_left ?_).trans (List.map_id rest)
        intro x hx
        simp only [id_eq]
        rw [if_neg]
        intro hxn
        exact (hkeys.1 x hx) (hrn.trans hxn.symm)
      rw [hrest_eq]
      simp only [bestFlagCount] at hrest
      simp [hrest]
    · rw [if_neg hrn]
      have hle := ih hkeys.2 hrest
      unfold setBestFlag bestFlagCount at hle
      simp only [hrb, Bool.false_eq_true, if_false, Nat.add_zero]
      exact hle

/-- Claim C6 (amended): the engine flags the minimum-duration lap as best
and clears nothing; consequently, a run over a laps table with unique lap
numbers and no best flag set (in particular a first run) leaves at most
one flagged row — and on a first run over a trace whose second lap is
fastest, the 62-second lap 2 alone carries the flag. -/
theorem best_flag_unique_after_clean_run :
    (∀ (db : List LapRow) (t : List PosSample),
      List.Pairwise (fun a b => a.lap_number ≠ b.lap_number) db →
      bestFlagCount db = 0 →
      bestFlagCount (calculate_lap_times db t).1 ≤ 1) ∧
    (calculate_lap_times [] t1Trace).1 =
      [{ lap_number := 1, lap_time_ms := 63000, start_time := 0, end_time := 63,
         is_valid := true, is_best_lap := false },
       { lap_number := 2, lap_time_ms := 62000, start_time := 63, end_time := 125,
         is_valid := true, is_best_lap := true }] := by
  constructor
  · intro db t hkeys hclean
    by_cases h : t.length < 100
    · simp only [calculate_lap_times, if_pos h]
      omega
    · cases hL : detect_laps_from_position t with
      | nil =>
        simp only [calculate_lap_times, if_neg h, hL]
        rw [show insertLapsFrom db 1 [] = db from rfl]
        omega
      | cons l ls =>
        simp only [calculate_lap_times, if_neg h, hL]
        apply bestFlagCount_setBestFlag_le
        · exact nodupKeys_insertLapsFrom (l :: ls) 1 db hkeys
        · rw [bestFlagCount_insertLapsFrom]
          exact hclean
  · decide

/-- Claim C6 witness: a first run (empty laps table, unique keys trivially)
over a 131-sample trace leaves at most one flagged row. -/
theorem best_flag_unique_after_clean_run_witness :
    bestFlagCount (calculate_lap_times [] t2Trace).1 ≤ 1 :=
  best_flag_unique_after_clean_run.1 [] t2Trace (by simp) rfl

end RacingAnalytics
